import Mathlib

/-!
Verification development for the Stage178 QSP minimal protocol core
(`qsp/minicore.py`): a session-level state machine that gates application
data behind a handshake, enforces strict epoch monotonicity, binds frames
to an established session identity, and detects security-mode downgrade.

Modelling conventions:
* Python `int` is `Int` (arbitrary precision).
* Byte strings are symbolic token lists (`Bytes := List Tok`): literal byte
  values are `Tok.byte` tokens, UTF-8 encodings of strings are a single
  `Tok.str` token, and the SHA-256 digest `_h(m)` is the single token
  `Tok.hashT m`.  This is the standard symbolic (free-algebra) model of a
  deterministic collision-free hash; concatenation is list append, as in
  Python.  `fingerprint_hex` (a hex digest of a hash) is modelled as the
  hash term itself, an injective renaming of the real value.
* `int.to_bytes(8, "big")` / `(8, "big", signed=True)` are modelled by
  `encU64` / `encI64`, returning `none` exactly when CPython raises
  `OverflowError`; a frame-acceptance path that would raise a non-protocol
  exception yields the `Outcome.pyerr` outcome (with exactly the state
  mutations performed before the raising expression).
* Dynamically typed inputs (dict values, keyword arguments) are `PyVal`;
  a dict is a record of optional fields (`none` = key absent,
  `PyVal.pynone` = key present with value `None`).
-/

/-- One symbolic token of a byte string. -/
inductive Tok where
  | byte : Nat → Tok
  | str : String → Tok
  | hashT : List Tok → Tok

/-- A (symbolic) byte string. -/
abbrev Bytes := List Tok

mutual

/-- Boolean equality on tokens. -/
def Tok.beq : Tok → Tok → Bool
  | .byte a, .byte b => a == b
  | .str a, .str b => a == b
  | .hashT a, .hashT b => Tok.beqList a b
  | _, _ => false

/-- Boolean equality on token lists. -/
def Tok.beqList : List Tok → List Tok → Bool
  | [], [] => true
  | a :: as, b :: bs => Tok.beq a b && Tok.beqList as bs
  | _, _ => false

end

mutual

theorem Tok.eq_of_beq : ∀ a b : Tok, Tok.beq a b = true → a = b
  | .byte a, .byte b, h => by
    simpa [Tok.beq] using h
  | .str a, .str b, h => by
    simpa [Tok.beq] using h
  | .hashT a, .hashT b, h => by
    rw [Tok.eqList_of_beqList a b (by simpa [Tok.beq] using h)]
  | .byte _, .str _, h => by simp [Tok.beq] at h
  | .byte _, .hashT _, h => by simp [Tok.beq] at h
  | .str _, .byte _, h => by simp [Tok.beq] at h
  | .str _, .hashT _, h => by simp [Tok.beq] at h
  | .hashT _, .byte _, h => by simp [Tok.beq] at h
  | .hashT _, .str _, h => by simp [Tok.beq] at h

theorem Tok.eqList_of_beqList : ∀ a b : List Tok, Tok.beqList a b = true → a = b
  | [], [], _ => rfl
  | a :: as, b :: bs, h => by
    have h' := h
    simp only [Tok.beqList, Bool.and_eq_true] at h'
    rw [Tok.eq_of_beq a b h'.1, Tok.eqList_of_beqList as bs h'.2]
  | [], _ :: _, h => by simp [Tok.beqList] at h
  | _ :: _, [], h => by simp [Tok.beqList] at h

end

mutual

theorem Tok.beq_refl : ∀ a : Tok, Tok.beq a a = true
  | .byte a => by simp [Tok.beq]
  | .str a => by simp [Tok.beq]
  | .hashT a => by simpa [Tok.beq] using Tok.beqList_refl a

theorem Tok.beqList_refl : ∀ a : List Tok, Tok.beqList a a = true
  | [] => rfl
  | a :: as => by
    simp only [Tok.beqList, Bool.and_eq_true]
    exact ⟨Tok.beq_refl a, Tok.beqList_refl as⟩

end

instance : DecidableEq Tok := fun a b =>
  decidable_of_iff (Tok.beq a b = true)
    ⟨Tok.eq_of_beq a b, fun h => h ▸ Tok.beq_refl a⟩

mutual

/-- Debug rendering of a token. -/
def Tok.render : Tok → String
  | .byte n => "b" ++ toString n
  | .str s => "s:" ++ s
  | .hashT m => "H(" ++ Tok.renderList m ++ ")"

/-- Debug rendering of a token list. -/
def Tok.renderList : List Tok → String
  | [] => ""
  | t :: ts => Tok.render t ++ "," ++ Tok.renderList ts

end

instance : Repr Tok := ⟨fun t _ => Tok.render t⟩

/-- UTF-8 encoding of a string literal / `str.encode("utf-8")`. -/
def strB (s : String) : Bytes := [Tok.str s]

/-- `_h(data) = hashlib.sha256(data).digest()` in the symbolic model. -/
def hashB (b : Bytes) : Bytes := [Tok.hashT b]

/-- A concrete payload byte list as a byte string. -/
def payloadB (l : List Nat) : Bytes := l.map Tok.byte

/-- The initial key material `b"init"`. -/
def initB : Bytes := strB "init"

/-- Big-endian bytes of a natural number, `w` bytes wide (little-endian
  accumulation reversed). -/
def natBytes : Nat → Nat → List Nat
  | 0, _ => []
  | w + 1, n => natBytes w (n / 256) ++ [n % 256]

/-- `n.to_bytes(8, "big")`: defined iff `0 ≤ n < 2^64` (CPython raises
  `OverflowError` otherwise). -/
def encU64 (n : Int) : Option Bytes :=
  if 0 ≤ n ∧ n < 2 ^ 64 then some ((natBytes 8 n.toNat).map Tok.byte) else none

/-- `n.to_bytes(8, "big", signed=True)`: defined iff `-2^63 ≤ n < 2^63`,
  two's complement. -/
def encI64 (n : Int) : Option Bytes :=
  if -(2 ^ 63) ≤ n ∧ n < 2 ^ 63 then
    some ((natBytes 8 (n % 2 ^ 64).toNat).map Tok.byte)
  else none

/-- Strict UTF-8 decoding of a byte list (as `bytes.decode("utf-8",
  errors="strict")`): rejects continuation errors, overlong forms,
  surrogates, and code points above U+10FFFF.  Fuel-driven; the fuel is
  always instantiated with the length of the list. -/
def utf8Go : Nat → List Nat → Option (List Char)
  | _, [] => some []
  | 0, _ :: _ => none
  | fuel + 1, b :: rest =>
    if b < 0x80 then
      (utf8Go fuel rest).map (fun cs => Char.ofNat b :: cs)
    else if b < 0xC2 then none
    else if b < 0xE0 then
      match rest with
      | b1 :: r =>
        if 0x80 ≤ b1 ∧ b1 < 0xC0 then
          (utf8Go fuel r).map (fun cs => Char.ofNat ((b - 0xC0) * 64 + (b1 - 0x80)) :: cs)
        else none
      | [] => none
    else if b < 0xF0 then
      match rest with
      | b1 :: b2 :: r =>
        if (if b = 0xE0 then 0xA0 else 0x80) ≤ b1 ∧
           b1 < (if b = 0xED then 0xA0 else 0xC0) ∧
           0x80 ≤ b2 ∧ b2 < 0xC0 then
          (utf8Go fuel r).map (fun cs =>
            Char.ofNat ((b - 0xE0) * 4096 + (b1 - 0x80) * 64 + (b2 - 0x80)) :: cs)
        else none
      | _ => none
    else if b < 0xF5 then
      match rest with
      | b1 :: b2 :: b3 :: r =>
        if (if b = 0xF0 then 0x90 else 0x80) ≤ b1 ∧
           b1 < (if b = 0xF4 then 0x90 else 0xC0) ∧
           0x80 ≤ b2 ∧ b2 < 0xC0 ∧ 0x80 ≤ b3 ∧ b3 < 0xC0 then
          (utf8Go fuel r).map (fun cs =>
            Char.ofNat ((b - 0xF0) * 262144 + (b1 - 0x80) * 4096 +
              (b2 - 0x80) * 64 + (b3 - 0x80)) :: cs)
        else none
      | _ => none
    else none

/-- `bytes(l).decode("utf-8", errors="strict")` as an optional string. -/
def utf8D (l : List Nat) : Option String :=
  (utf8Go l.length l).map List.asString

/-- A dynamically typed Python value, as far as `minicore.py` inspects
  them (`bool` is a subclass of `int` and is folded into `int`;
  `bytearray` is folded into `bytes`; `other b` is any value of another
  type, with truthiness `b`). -/
inductive PyVal where
  | int : Int → PyVal
  | str : String → PyVal
  | bytes : List Nat → PyVal
  | pynone : PyVal
  | other : Bool → PyVal
deriving DecidableEq, Repr

/-- Python truthiness of a `PyVal`. -/
def PyVal.truthy : PyVal → Bool
  | .int n => n ≠ 0
  | .str s => s ≠ ""
  | .bytes l => l ≠ []
  | .pynone => false
  | .other b => b

/-- A dict-style frame: the six keys `minicore.py` reads.  `none` means
  the key is absent; `some .pynone` means it is present with value
  `None`. -/
structure DictFrame where
  type : Option PyVal := none
  frame_type : Option PyVal := none
  session_id : Option PyVal := none
  epoch : Option PyVal := none
  payload : Option PyVal := none
  mode : Option PyVal := none
deriving DecidableEq, Repr

/-- `frame.get("type") or frame.get("frame_type")` (Python `or`:
  first operand if truthy, else second; `get` yields `None` when the key
  is absent). -/
def dictFt (f : DictFrame) : PyVal :=
  let a := f.type.getD .pynone
  if a.truthy then a else f.frame_type.getD .pynone

/-- `frame.get("session_id")`. -/
def dictSid (f : DictFrame) : PyVal := f.session_id.getD .pynone

/-- `frame.get("epoch")`. -/
def dictEpoch (f : DictFrame) : PyVal := f.epoch.getD .pynone

/-- `frame.get("payload", b"")` followed by the `None`→`b""` and
  `bytearray`→`bytes` normalization. -/
def dictPayload (f : DictFrame) : PyVal :=
  match f.payload with
  | none => .bytes []
  | some .pynone => .bytes []
  | some v => v

/-- `frame.get("mode", "PQC+QKD")` (handshake branch only). -/
def dictModeHs (f : DictFrame) : PyVal := f.mode.getD (.str "PQC+QKD")

/-- `MiniResult` (dataclass). -/
structure MiniResult where
  ok : Bool
  detail : String
  epoch : Int
  session_id : Int
  key_fingerprint_hex : Bytes
deriving DecidableEq, Repr

/-- The outcome of one call: a dict-style `MiniResult`, an old-style
  `bytes` return, a `None` return (`advance_epoch`), a raised
  `ProtocolViolation` with its reason, or a raised non-protocol exception
  (`OverflowError` from `int.to_bytes`). -/
inductive Outcome where
  | okD : MiniResult → Outcome
  | okO : Bytes → Outcome
  | okNone : Outcome
  | viol : String → Outcome
  | pyerr : Outcome
deriving DecidableEq, Repr

/-- Did the call return normally (no exception)? -/
def Outcome.isOk : Outcome → Bool
  | .okD _ => true
  | .okO _ => true
  | .okNone => true
  | .viol _ => false
  | .pyerr => false

/-- `MiniSession` (dataclass) with its field defaults. -/
structure MiniSession where
  expected_session_id : Option Int := none
  session_id : Int := 0
  epoch : Int := 0
  handshake_complete : Bool := false
  closed : Bool := false
  key_material : Bytes := initB
  mode : Option String := none
deriving DecidableEq, Repr

/-- The guard `self.s.expected_session_id is not None and sid !=
  self.s.expected_session_id`. -/
def expectedMismatch : Option Int → Int → Bool
  | some e, sid => sid ≠ e
  | none, _ => false

/-- `MiniSession.fingerprint_hex`: hex digest of `sha256(key_material)`
  (modelled as the hash term itself). -/
def MiniSession.fingerprint_hex (s : MiniSession) : Bytes := hashB s.key_material

/-- `MiniSession.close(reason)`: set `closed = True` and raise
  `ProtocolViolation(reason)`. -/
def MiniSession.close (s : MiniSession) (reason : String) : MiniSession × Outcome :=
  ({ s with closed := true }, .viol reason)

/-- `MiniCore.__init__(session_id)`: fresh session, optionally pinned to
  an expected session id. -/
def MiniCore.new (session_id : Option Int) : MiniSession :=
  { expected_session_id := session_id }

/-- `MiniCore._guard_mode_dict`: `some` is the early (closing) exit,
  `none` means the guard passed without touching the session. -/
def MiniCore.guard_mode_dict (s : MiniSession) (f : DictFrame) :
    Option (MiniSession × Outcome) :=
  match f.mode with
  | none => none
  | some .pynone => none
  | some (.str m) =>
    match s.mode with
    | none => none
    | some pm => if m ≠ pm then some (s.close "downgrade detected") else none
  | some _ => some (s.close "Invalid mode")

/-- `MiniCore._guard_mode_old`: the optional `b"MODE:"` payload marker. -/
def MiniCore.guard_mode_old (s : MiniSession) (payload_b : List Nat) :
    Option (MiniSession × Outcome) :=
  if payload_b.take 5 = [77, 79, 68, 69, 58] then
    match utf8D (payload_b.drop 5) with
    | none => some (s.close "Invalid mode")
    | some m =>
      match s.mode with
      | none => none
      | some pm => if m ≠ pm then some (s.close "downgrade detected") else none
  else none

/-- `MiniCore._accept_dict_frame`. -/
def MiniCore.accept_dict_frame (s : MiniSession) (f : DictFrame) :
    MiniSession × Outcome :=
  match dictFt f with
  | .str ft =>
    match dictSid f, dictEpoch f with
    | .int sid, .int epoch =>
      match dictPayload f with
      | .bytes payload_b =>
        if ft = "HANDSHAKE_DONE" then
          if s.handshake_complete then s.close "Duplicate handshake"
          else if epoch < 1 then s.close "Handshake epoch must be >= 1"
          else if expectedMismatch s.expected_session_id sid then s.close "session mismatch"
          else
            match dictModeHs f with
            | .str mode =>
              match encU64 sid, encI64 epoch with
              | some sb, some eb =>
                let km := hashB (strB "hs" ++ sb ++ eb ++ strB mode)
                ({ s with mode := some mode, session_id := sid, epoch := epoch,
                          handshake_complete := true, key_material := km },
                 .okD ⟨true, "handshake", epoch, sid, hashB km⟩)
              | _, _ =>
                ({ s with mode := some mode, session_id := sid, epoch := epoch,
                          handshake_complete := true }, .pyerr)
            | _ => s.close "Invalid mode"
        else if ¬ s.handshake_complete then s.close "before handshake"
        else
          match MiniCore.guard_mode_dict s f with
          | some r => r
          | none =>
            if sid ≠ s.session_id then s.close "session mismatch"
            else if ft = "REKEY" then
              if epoch ≠ s.epoch + 1 then s.close "bad rekey epoch"
              else
                match encI64 epoch with
                | some eb =>
                  let km := hashB (s.key_material ++ strB "rekey" ++ eb ++ payloadB payload_b)
                  ({ s with epoch := epoch, key_material := km },
                   .okD ⟨true, "rekey", epoch, s.session_id, hashB km⟩)
                | none => ({ s with epoch := epoch }, .pyerr)
            else if ft = "APP_DATA" then
              if epoch ≠ s.epoch then s.close "epoch mismatch"
              else (s, .okD ⟨true, "app", s.epoch, s.session_id, hashB s.key_material⟩)
            else s.close "unknown frame"
      | _ => s.close "Invalid payload"
    | _, _ => s.close "Invalid session_id or epoch"
  | _ => s.close "Missing frame type"

/-- `MiniCore._accept_old_style`. -/
def MiniCore.accept_old_style (s : MiniSession) (ft : String)
    (payload claimed_session_id claimed_epoch : PyVal) : MiniSession × Outcome :=
  match claimed_session_id, claimed_epoch with
  | .int sid, .int epoch =>
    match (match payload with
           | .pynone => some ([] : List Nat)
           | .bytes l => some l
           | _ => none) with
    | none => s.close "Invalid payload"
    | some payload_b =>
      if ft = "HS" then
        if s.handshake_complete then s.close "Duplicate handshake"
        else if expectedMismatch s.expected_session_id sid then s.close "session mismatch"
        else if epoch < 0 then s.close "bad epoch"
        else
          match encU64 sid, encI64 epoch with
          | some sb, some eb =>
            let km := hashB (strB "hs" ++ sb ++ eb ++ strB "PQC+QKD")
            ({ s with mode := some "PQC+QKD", session_id := sid, epoch := epoch,
                      handshake_complete := true, key_material := km },
             .okO (strB "OK:HS"))
          | _, _ =>
            ({ s with mode := some "PQC+QKD", session_id := sid, epoch := epoch,
                      handshake_complete := true }, .pyerr)
      else if ¬ s.handshake_complete then s.close "before handshake"
      else
        match MiniCore.guard_mode_old s payload_b with
        | some r => r
        | none =>
          if sid ≠ s.session_id then s.close "session mismatch"
          else if ft = "REKEY" then
            if epoch ≠ s.epoch + 1 then s.close "bad rekey epoch"
            else
              match encI64 epoch with
              | some eb =>
                let km := hashB (s.key_material ++ strB "rekey" ++ eb ++ payloadB payload_b)
                ({ s with epoch := epoch, key_material := km }, .okO (strB "OK:REKEY"))
              | none => ({ s with epoch := epoch }, .pyerr)
          else if ft = "APP_DATA" then
            if epoch ≠ s.epoch then s.close "epoch mismatch"
            else (s, .okO (strB "OK:APP_DATA:" ++ payloadB payload_b))
          else s.close "unknown frame"
  | _, _ => s.close "Invalid claimed_session_id or claimed_epoch"

/-- The unified `accept_frame` argument: a dict, a string frame type with
  the old-style keyword arguments, or a first argument of any other
  type. -/
inductive FrameInput where
  | dictF : DictFrame → FrameInput
  | oldF : String → PyVal → PyVal → PyVal → FrameInput
  | badF : FrameInput
deriving DecidableEq, Repr

/-- `MiniCore.accept_frame`: dispatch on the call style. -/
def MiniCore.accept_frame (s : MiniSession) : FrameInput → MiniSession × Outcome
  | .dictF f => MiniCore.accept_dict_frame s f
  | .oldF ft p csid cep => MiniCore.accept_old_style s ft p csid cep
  | .badF => s.close "Invalid frame input"

/-- `MiniCore.advance_epoch` (returns `None` on success). -/
def MiniCore.advance_epoch (s : MiniSession) : MiniSession × Outcome :=
  if ¬ s.handshake_complete then s.close "before handshake"
  else
    match encI64 (s.epoch + 1) with
    | some eb =>
      ({ s with epoch := s.epoch + 1,
                key_material := hashB (s.key_material ++ strB "advance" ++ eb) },
       .okNone)
    | none => ({ s with epoch := s.epoch + 1 }, .pyerr)

mutual

/-- Weight of a token (strictly positive). -/
def Tok.w : Tok → Nat
  | .byte _ => 1
  | .str _ => 1
  | .hashT m => 1 + Tok.wList m

/-- Weight of a token list. -/
def Tok.wList : List Tok → Nat
  | [] => 0
  | t :: ts => Tok.w t + Tok.wList ts

end

theorem Tok.wList_append (a b : List Tok) :
    Tok.wList (a ++ b) = Tok.wList a + Tok.wList b := by
  induction a with
  | nil => simp [Tok.wList]
  | cons t ts ih => simp [Tok.wList, ih]; omega

/-- A hash-chain extension is never equal to the chained-over value: the
  symbolic counterpart of "re-deriving the key material changes it". -/
theorem hash_append_ne (km rest : Bytes) : hashB (km ++ rest) ≠ km := by
  intro h
  have hw := congrArg Tok.wList h
  simp only [hashB, Tok.wList, Tok.w, Tok.wList_append] at hw
  omega

/-- A hash of at-least-as-heavy input is never equal to a given byte
  string: the symbolic counterpart of "re-deriving changes the value". -/
theorem hash_ne_of_le (km m : Bytes) (h : Tok.wList km ≤ Tok.wList m) :
    hashB m ≠ km := by
  intro he
  have hw := congrArg Tok.wList he
  simp only [hashB, Tok.wList, Tok.w] at hw
  omega

/-- A hash term is never the initial key material. -/
theorem hash_ne_init (m : Bytes) : hashB m ≠ initB := by
  simp [hashB, initB, strB]

/-- One driver operation: an `accept_frame` call or an `advance_epoch`
  call. -/
inductive Op where
  | frame : FrameInput → Op
  | adv : Op
deriving DecidableEq, Repr

/-- Execute one operation on a session. -/
def stepOp (s : MiniSession) : Op → MiniSession × Outcome
  | .frame i => MiniCore.accept_frame s i
  | .adv => MiniCore.advance_epoch s

/-- Run a list of operations, requiring every call to return normally,
  and record `fingerprint_hex` after each call. -/
def runOps (s : MiniSession) : List Op → Option (MiniSession × List Bytes)
  | [] => some (s, [])
  | op :: ops =>
    let p := stepOp s op
    if p.2.isOk then
      match runOps p.1 ops with
      | some (t, fps) => some (t, p.1.fingerprint_hex :: fps)
      | none => none
    else none

/-- The session fields that drive every guard except the pre-shared
  `expected_session_id` pin (and the never-consulted `closed` flag). -/
structure CoreView where
  session_id : Int
  epoch : Int
  handshake_complete : Bool
  mode : Option String
  key_material : Bytes
deriving DecidableEq, Repr

/-- Project a session onto its behavioural core. -/
def MiniSession.view (s : MiniSession) : CoreView :=
  ⟨s.session_id, s.epoch, s.handshake_complete, s.mode, s.key_material⟩

/-- Does `_guard_mode_dict` pass (no exception), as a function of the
  pinned mode only? -/
def modeOkDict (pm : Option String) (f : DictFrame) : Bool :=
  match f.mode with
  | none => true
  | some .pynone => true
  | some (.str m) =>
    match pm with
    | none => true
    | some p => m = p
  | some _ => false

/-- Does `_guard_mode_old` pass, as a function of the pinned mode only? -/
def modeOkOld (pm : Option String) (payload_b : List Nat) : Bool :=
  if payload_b.take 5 = [77, 79, 68, 69, 58] then
    match utf8D (payload_b.drop 5) with
    | none => false
    | some m =>
      match pm with
      | none => true
      | some p => m = p
  else true

/-- Reference transition on the behavioural core: the success paths of
  `stepOp` with the `expected_session_id` pin removed; `none` on every
  exceptional path. -/
def refStep (v : CoreView) : Op → Option (CoreView × Outcome)
  | .frame (.dictF f) =>
    match dictFt f with
    | .str ft =>
      match dictSid f, dictEpoch f with
      | .int sid, .int epoch =>
        match dictPayload f with
        | .bytes payload_b =>
          if ft = "HANDSHAKE_DONE" then
            if v.handshake_complete then none
            else if epoch < 1 then none
            else
              match dictModeHs f with
              | .str mode =>
                match encU64 sid, encI64 epoch with
                | some sb, some eb =>
                  let km := hashB (strB "hs" ++ sb ++ eb ++ strB mode)
                  some ({ session_id := sid, epoch := epoch,
                          handshake_complete := true, mode := some mode,
                          key_material := km },
                        .okD ⟨true, "handshake", epoch, sid, hashB km⟩)
                | _, _ => none
              | _ => none
          else if ¬ v.handshake_complete then none
          else if modeOkDict v.mode f then
            if sid ≠ v.session_id then none
            else if ft = "REKEY" then
              if epoch ≠ v.epoch + 1 then none
              else
                match encI64 epoch with
                | some eb =>
                  let km := hashB (v.key_material ++ strB "rekey" ++ eb ++ payloadB payload_b)
                  some ({ v with epoch := epoch, key_material := km },
                        .okD ⟨true, "rekey", epoch, v.session_id, hashB km⟩)
                | none => none
            else if ft = "APP_DATA" then
              if epoch ≠ v.epoch then none
              else some (v, .okD ⟨true, "app", v.epoch, v.session_id, hashB v.key_material⟩)
            else none
          else none
        | _ => none
      | _, _ => none
    | _ => none
  | .frame (.oldF ft payload claimed_session_id claimed_epoch) =>
    match claimed_session_id, claimed_epoch with
    | .int sid, .int epoch =>
      match (match payload with
             | .pynone => some ([] : List Nat)
             | .bytes l => some l
             | _ => none) with
      | none => none
      | some payload_b =>
        if ft = "HS" then
          if v.handshake_complete then none
          else if epoch < 0 then none
          else
            match encU64 sid, encI64 epoch with
            | some sb, some eb =>
              let km := hashB (strB "hs" ++ sb ++ eb ++ strB "PQC+QKD")
              some ({ session_id := sid, epoch := epoch,
                      handshake_complete := true, mode := some "PQC+QKD",
                      key_material := km },
                    .okO (strB "OK:HS"))
            | _, _ => none
        else if ¬ v.handshake_complete then none
        else if modeOkOld v.mode payload_b then
          if sid ≠ v.session_id then none
          else if ft = "REKEY" then
            if epoch ≠ v.epoch + 1 then none
            else
              match encI64 epoch with
              | some eb =>
                let km := hashB (v.key_material ++ strB "rekey" ++ eb ++ payloadB payload_b)
                some ({ v with epoch := epoch, key_material := km }, .okO (strB "OK:REKEY"))
              | none => none
          else if ft = "APP_DATA" then
            if epoch ≠ v.epoch then none
            else some (v, .okO (strB "OK:APP_DATA:" ++ payloadB payload_b))
          else none
        else none
    | _, _ => none
  | .frame .badF => none
  | .adv =>
    if ¬ v.handshake_complete then none
    else
      match encI64 (v.epoch + 1) with
      | some eb =>
        let km := hashB (v.key_material ++ strB "advance" ++ eb)
        some ({ v with epoch := v.epoch + 1, key_material := km }, .okNone)
      | none => none

theorem guard_dict_some_spec (s : MiniSession) (f : DictFrame) (r : MiniSession × Outcome)
    (h : MiniCore.guard_mode_dict s f = some r) :
    r.1 = { s with closed := true } ∧ r.2.isOk = false := by
  unfold MiniCore.guard_mode_dict at h
  repeat' split at h
  any_goals exact (Option.noConfusion h)
  all_goals injection h with h
  all_goals subst h
  all_goals simp [MiniSession.close, Outcome.isOk]

theorem guard_old_some_spec (s : MiniSession) (payload_b : List Nat)
    (r : MiniSession × Outcome)
    (h : MiniCore.guard_mode_old s payload_b = some r) :
    r.1 = { s with closed := true } ∧ r.2.isOk = false := by
  unfold MiniCore.guard_mode_old at h
  repeat' split at h
  any_goals exact (Option.noConfusion h)
  all_goals injection h with h
  all_goals subst h
  all_goals simp [MiniSession.close, Outcome.isOk]

theorem accept_dict_viol_closes (s : MiniSession) (f : DictFrame) (s' : MiniSession)
    (rsn : String) (h : MiniCore.accept_dict_frame s f = (s', .viol rsn)) :
    s' = { s with closed := true } := by
  unfold MiniCore.accept_dict_frame at h
  cases hg : MiniCore.guard_mode_dict s f with
  | none =>
    simp only [hg] at h
    repeat' split at h
    all_goals simp_all [MiniSession.close, Outcome.isOk]
  | some r =>
    rcases guard_dict_some_spec s f r hg with ⟨h1, h2⟩
    simp only [hg] at h
    repeat' split at h
    all_goals simp_all [MiniSession.close, Outcome.isOk]

theorem accept_old_viol_closes (s : MiniSession) (ft : String)
    (payload csid cep : PyVal) (s' : MiniSession) (rsn : String)
    (h : MiniCore.accept_old_style s ft payload csid cep = (s', .viol rsn)) :
    s' = { s with closed := true } := by
  unfold MiniCore.accept_old_style at h
  split at h
  · split at h
    · simp_all [MiniSession.close]
    · rename_i sid epoch payload_b heq
      cases hg : MiniCore.guard_mode_old s payload_b with
      | none =>
        simp only [hg] at h
        repeat' split at h
        all_goals simp_all [MiniSession.close, Outcome.isOk]
      | some r =>
        rcases guard_old_some_spec s payload_b r hg with ⟨h1, h2⟩
        simp only [hg] at h
        repeat' split at h
        all_goals simp_all [MiniSession.close, Outcome.isOk]
  · simp_all [MiniSession.close]

theorem advance_viol_closes (s : MiniSession) (s' : MiniSession) (rsn : String)
    (h : MiniCore.advance_epoch s = (s', .viol rsn)) :
    s' = { s with closed := true } := by
  unfold MiniCore.advance_epoch at h
  repeat' split at h
  all_goals simp_all [MiniSession.close]

theorem accept_frame_viol_closes (s : MiniSession) (inp : FrameInput)
    (s' : MiniSession) (rsn : String)
    (h : MiniCore.accept_frame s inp = (s', .viol rsn)) :
    s' = { s with closed := true } := by
  cases inp with
  | dictF f => exact accept_dict_viol_closes s f s' rsn h
  | oldF ft p csid cep => exact accept_old_viol_closes s ft p csid cep s' rsn h
  | badF =>
    simp only [MiniCore.accept_frame, MiniSession.close] at h
    exact (Prod.ext_iff.mp h).1.symm

/-- The frame-type string claimed by an `accept_frame` input, if any. -/
def inpKind : FrameInput → Option String
  | .dictF f =>
    match dictFt f with
    | .str ft => some ft
    | _ => none
  | .oldF ft _ _ _ => some ft
  | .badF => none

theorem advance_ok_spec (s t : MiniSession) (o : Outcome)
    (h : MiniCore.advance_epoch s = (t, o)) (hok : o.isOk = true) :
    ∃ eb, encI64 (s.epoch + 1) = some eb ∧
      t = { s with epoch := s.epoch + 1,
                   key_material := hashB (s.key_material ++ strB "advance" ++ eb) } ∧
      o = .okNone := by
  unfold MiniCore.advance_epoch at h
  repeat' split at h
  all_goals try simp only [MiniSession.close] at h
  all_goals injection h with hs' ho
  all_goals subst ho
  all_goals subst hs'
  all_goals first
    | (simp [Outcome.isOk] at hok; done)
    | (rename_i eb heq; exact ⟨eb, heq, rfl, rfl⟩)

/-- Characterization of the key material after a successful
  `accept_frame`: unchanged on APP_DATA, hash-extended on REKEY, a fresh
  hash on handshake. -/
theorem accept_ok_km (s : MiniSession) (inp : FrameInput) (s' : MiniSession)
    (o : Outcome) (h : MiniCore.accept_frame s inp = (s', o))
    (hok : o.isOk = true) :
    (s'.key_material = s.key_material ∧ inpKind inp = some "APP_DATA") ∨
    ((∃ m, s'.key_material = hashB m ∧
        Tok.wList s.key_material ≤ Tok.wList m) ∧
      inpKind inp = some "REKEY") ∨
    ((∃ m, s'.key_material = hashB m) ∧
      (inpKind inp = some "HANDSHAKE_DONE" ∨ inpKind inp = some "HS")) := by
  cases inp with
  | badF =>
    simp only [MiniCore.accept_frame, MiniSession.close] at h
    injection h with hs' ho
    subst ho
    simp [Outcome.isOk] at hok
  | dictF f =>
    simp only [MiniCore.accept_frame] at h
    unfold MiniCore.accept_dict_frame at h
    cases hg : MiniCore.guard_mode_dict s f with
    | none =>
      simp only [hg] at h
      repeat' split at h
      all_goals try simp only [MiniSession.close] at h
      all_goals injection h with hs' ho
      all_goals subst ho
      all_goals subst hs'
      all_goals first
        | (simp [Outcome.isOk] at hok; done)
        | (refine Or.inl ⟨rfl, ?_⟩; simp_all [inpKind])
        | (refine Or.inr (Or.inl ⟨⟨_, rfl, ?_⟩, ?_⟩)
           · simp only [Tok.wList_append]
             omega
           · simp_all [inpKind])
        | (refine Or.inr (Or.inr ⟨⟨_, rfl⟩, ?_⟩); simp_all [inpKind])
    | some r =>
      rcases guard_dict_some_spec s f r hg with ⟨h1, h2⟩
      simp only [hg] at h
      repeat' split at h
      all_goals try simp only [MiniSession.close] at h
      all_goals first
        | (subst h; cases o <;> simp_all [Outcome.isOk])
        | (injection h with hs' ho; subst ho; subst hs';
           first
           | (simp [Outcome.isOk] at hok; done)
           | (refine Or.inr (Or.inr ⟨⟨_, rfl⟩, ?_⟩); simp_all [inpKind]))
  | oldF ft payload csid cep =>
    simp only [MiniCore.accept_frame] at h
    unfold MiniCore.accept_old_style at h
    split at h
    · split at h
      · simp only [MiniSession.close] at h
        injection h with hs' ho
        subst ho
        simp [Outcome.isOk] at hok
      · rename_i sid epoch payload_b heq
        cases hg : MiniCore.guard_mode_old s payload_b with
        | none =>
          simp only [hg] at h
          repeat' split at h
          all_goals try simp only [MiniSession.close] at h
          all_goals injection h with hs' ho
          all_goals subst ho
          all_goals subst hs'
          all_goals first
            | (simp [Outcome.isOk] at hok; done)
            | (refine Or.inl ⟨rfl, ?_⟩; simp_all [inpKind])
            | (refine Or.inr (Or.inl ⟨⟨_, rfl, ?_⟩, ?_⟩)
               · simp only [Tok.wList_append]
                 omega
               · simp_all [inpKind])
            | (refine Or.inr (Or.inr ⟨⟨_, rfl⟩, ?_⟩); simp_all [inpKind])
        | some r =>
          rcases guard_old_some_spec s payload_b r hg with ⟨h1, h2⟩
          simp only [hg] at h
          repeat' split at h
          all_goals try simp only [MiniSession.close] at h
          all_goals first
            | (subst h; cases o <;> simp_all [Outcome.isOk])
            | (injection h with hs' ho; subst ho; subst hs';
               first
               | (simp [Outcome.isOk] at hok; done)
               | (refine Or.inr (Or.inr ⟨⟨_, rfl⟩, ?_⟩); simp_all [inpKind]))
    · simp only [MiniSession.close] at h
      injection h with hs' ho
      subst ho
      simp [Outcome.isOk] at hok

/-- A concrete dict-style handshake input (session id 7, epoch 1). -/
def exHsInp : FrameInput :=
  .dictF { type := some (.str "HANDSHAKE_DONE"), session_id := some (.int 7),
           epoch := some (.int 1), payload := some (.bytes []) }

/-- Fresh session after a successful handshake. -/
def exHs : MiniSession × Outcome :=
  MiniCore.accept_frame (MiniCore.new none) exHsInp

/-- The handshaken session after an accepted APP_DATA at the current
  epoch. -/
def exApp : MiniSession × Outcome :=
  MiniCore.accept_frame exHs.1
    (.dictF { type := some (.str "APP_DATA"), session_id := some (.int 7),
              epoch := some (.int 1), payload := some (.bytes [104]) })

/-- The handshaken session after a rejected APP_DATA with a stale epoch:
  the violation closes the session. -/
def exBad : MiniSession × Outcome :=
  MiniCore.accept_frame exHs.1
    (.dictF { type := some (.str "APP_DATA"), session_id := some (.int 7),
              epoch := some (.int 5), payload := some (.bytes []) })

/-- A further APP_DATA frame sent on the (now closed) session. -/
def exAfterClose : MiniSession × Outcome :=
  MiniCore.accept_frame exBad.1
    (.dictF { type := some (.str "APP_DATA"), session_id := some (.int 7),
              epoch := some (.int 1), payload := some (.bytes []) })

/-- C1.  The spec demands that `closed` be absorbing: every call on a
  closed session must fail.  The code sets `closed` on every violation
  but never reads it, so a session closed by an epoch-mismatch violation
  still accepts a well-formed APP_DATA frame at the correct epoch, and
  still allows `advance_epoch`.  This evaluates the code at the failing
  input. -/
theorem C1_closed_session_accepts :
    exBad.1.closed = true ∧ exBad.2 = .viol "epoch mismatch" ∧
    exAfterClose.2.isOk = true ∧
    (MiniCore.advance_epoch exBad.1).2.isOk = true := by decide

/-- C2.  Every call that is rejected with a `ProtocolViolation` leaves
  the session equal to the pre-call session with `closed := true`: the
  closed flag is set and no other field (`session_id`, `epoch`,
  `handshake_complete`, `mode`, `key_material`, `expected_session_id`)
  changes, in both `accept_frame` encodings and in `advance_epoch`. -/
theorem C2_violation_closes_and_preserves (s : MiniSession) (inp : FrameInput)
    (rsn : String) :
    ((MiniCore.accept_frame s inp).2 = .viol rsn →
      (MiniCore.accept_frame s inp).1 = { s with closed := true }) ∧
    ((MiniCore.advance_epoch s).2 = .viol rsn →
      (MiniCore.advance_epoch s).1 = { s with closed := true }) := by
  constructor
  · intro h
    exact accept_frame_viol_closes s inp _ rsn (by rw [← h])
  · intro h
    exact advance_viol_closes s _ rsn (by rw [← h])

/-- Witness for C2 at a concrete rejected call: APP_DATA before the
  handshake. -/
theorem C2_witness :
    (MiniCore.accept_frame (MiniCore.new (some 1))
        (.oldF "APP_DATA" (.bytes [104]) (.int 1) (.int 0))).1 =
      { MiniCore.new (some 1) with closed := true } ∧
    (MiniCore.advance_epoch (MiniCore.new (some 1))).1 =
      { MiniCore.new (some 1) with closed := true } :=
  ⟨(C2_violation_closes_and_preserves (MiniCore.new (some 1))
      (.oldF "APP_DATA" (.bytes [104]) (.int 1) (.int 0)) "before handshake").1 (by decide),
   (C2_violation_closes_and_preserves (MiniCore.new (some 1))
      (.oldF "APP_DATA" (.bytes [104]) (.int 1) (.int 0)) "before handshake").2 (by decide)⟩

/-- `advance_epoch` success re-derives the key material to a strictly
  heavier hash term, hence a different value. -/
theorem advance_km_ne (s t : MiniSession) (o : Outcome)
    (h : MiniCore.advance_epoch s = (t, o)) (hok : o.isOk = true) :
    t.key_material ≠ s.key_material := by
  obtain ⟨eb, henc, ht, ho⟩ := advance_ok_spec s t o h hok
  subst ht
  show hashB (s.key_material ++ strB "advance" ++ eb) ≠ s.key_material
  exact hash_ne_of_le _ _ (by simp only [Tok.wList_append]; omega)

/-- C5 counterexample: an accepted APP_DATA transition does NOT re-derive
  `key_material` — it is left unchanged (so the claim "re-derived on
  every accepted transition" fails on app-data). -/
theorem C5_counterexample :
    exApp.2.isOk = true ∧ exApp.1.key_material = exHs.1.key_material := by decide

/-- C5 (amended).  On every accepted handshake (from the initial key
  material) and on every accepted REKEY or `advance_epoch`, the key
  material is re-derived by the hash chain and changes; an accepted
  APP_DATA leaves it unchanged. -/
theorem C5_rederive_amended (s : MiniSession) (inp : FrameInput) (s' : MiniSession)
    (o : Outcome) (h : MiniCore.accept_frame s inp = (s', o)) (hok : o.isOk = true) :
    (inpKind inp = some "APP_DATA" → s'.key_material = s.key_material) ∧
    ((inpKind inp = some "HANDSHAKE_DONE" ∨ inpKind inp = some "HS") →
      s.key_material = initB → s'.key_material ≠ s.key_material) ∧
    (inpKind inp = some "REKEY" → s'.key_material ≠ s.key_material) ∧
    (∀ t o2, MiniCore.advance_epoch s = (t, o2) → o2.isOk = true →
      t.key_material ≠ s.key_material) := by
  have hadv : ∀ t o2, MiniCore.advance_epoch s = (t, o2) → o2.isOk = true →
      t.key_material ≠ s.key_material := fun t o2 ha hok2 => advance_km_ne s t o2 ha hok2
  rcases accept_ok_km s inp s' o h hok with ⟨hk, hkd⟩ | ⟨⟨m, hk, hw⟩, hkd⟩ | ⟨⟨m, hk⟩, hkd⟩
  · exact ⟨fun _ => hk, by simp [hkd], by simp [hkd], hadv⟩
  · refine ⟨by simp [hkd], by simp [hkd], fun _ => ?_, hadv⟩
    rw [hk]
    exact hash_ne_of_le _ _ hw
  · rcases hkd with hkd | hkd <;>
    · refine ⟨by simp [hkd], fun _ hinit => ?_, by simp [hkd], hadv⟩
      rw [hk, hinit]
      exact hash_ne_init m

/-- Witness for C5 (amended) at the concrete handshake `exHs`: the
  accepted handshake changed the key material. -/
theorem C5_witness :
    exHs.2.isOk = true ∧ exHs.1.key_material ≠ (MiniCore.new none).key_material :=
  ⟨by decide,
   (C5_rederive_amended (MiniCore.new none) exHsInp exHs.1 exHs.2 rfl (by decide)).2.1
     (Or.inl (by decide)) (by decide)⟩

/-- C6 counterexample: on the concrete reachable session `exBad.1`
  (closed by an epoch-mismatch violation, handshake complete),
  `advance_epoch` succeeds — returning `None`, not the new epoch —
  although the claim requires it to fail with a Violation on a closed
  session. -/
theorem C6_counterexample :
    exBad.1.closed = true ∧ exBad.1.handshake_complete = true ∧
    (MiniCore.advance_epoch exBad.1).2 = .okNone ∧
    (MiniCore.advance_epoch exBad.1).1.epoch = exBad.1.epoch + 1 := by decide

/-- C6 (amended).  `advance_epoch` fails with a Violation exactly when
  the handshake is not complete (the `closed` flag is never consulted);
  when the handshake is complete it increments the epoch by exactly 1 and
  re-derives the key material to a new hash-chain value, returning `None`
  rather than the new epoch. -/
theorem C6_advance_amended (s : MiniSession) :
    (s.handshake_complete = false →
      MiniCore.advance_epoch s = ({ s with closed := true }, .viol "before handshake")) ∧
    (s.handshake_complete = true → ∀ eb, encI64 (s.epoch + 1) = some eb →
      MiniCore.advance_epoch s =
        ({ s with epoch := s.epoch + 1,
                  key_material := hashB (s.key_material ++ strB "advance" ++ eb) },
         .okNone) ∧
      hashB (s.key_material ++ strB "advance" ++ eb) ≠ s.key_material) := by
  constructor
  · intro hc
    simp [MiniCore.advance_epoch, hc, MiniSession.close]
  · intro hc eb he
    refine ⟨by simp [MiniCore.advance_epoch, hc, he], ?_⟩
    exact hash_ne_of_le _ _ (by simp only [Tok.wList_append]; omega)

/-- Witness for C6 (amended): a fresh session (no handshake) and the
  established session `exBad.1` at epoch 1. -/
theorem C6_witness :
    MiniCore.advance_epoch (MiniCore.new none) =
      ({ MiniCore.new none with closed := true }, .viol "before handshake") ∧
    (MiniCore.advance_epoch exBad.1 =
      ({ exBad.1 with epoch := exBad.1.epoch + 1,
                      key_material := hashB (exBad.1.key_material ++ strB "advance" ++
                        payloadB [0, 0, 0, 0, 0, 0, 0, 2]) }, .okNone) ∧
     hashB (exBad.1.key_material ++ strB "advance" ++
       payloadB [0, 0, 0, 0, 0, 0, 0, 2]) ≠ exBad.1.key_material) :=
  ⟨(C6_advance_amended (MiniCore.new none)).1 rfl,
   (C6_advance_amended exBad.1).2 (by decide) (payloadB [0, 0, 0, 0, 0, 0, 0, 2]) (by decide)⟩

theorem dict_rekey_eq (s : MiniSession) (f : DictFrame) (sid ep : Int)
    (pb : List Nat) (hc : s.handshake_complete = true)
    (hft : dictFt f = .str "REKEY") (hsid : dictSid f = .int sid)
    (hep : dictEpoch f = .int ep) (hpb : dictPayload f = .bytes pb)
    (hg : MiniCore.guard_mode_dict s f = none) (hid : sid = s.session_id) :
    MiniCore.accept_dict_frame s f =
      if ep ≠ s.epoch + 1 then ({ s with closed := true }, .viol "bad rekey epoch")
      else
        match encI64 ep with
        | some eb =>
          ({ s with epoch := ep,
                    key_material := hashB (s.key_material ++ strB "rekey" ++ eb ++ payloadB pb) },
           .okD ⟨true, "rekey", ep, s.session_id,
                 hashB (hashB (s.key_material ++ strB "rekey" ++ eb ++ payloadB pb))⟩)
        | none => ({ s with epoch := ep }, .pyerr) := by
  unfold MiniCore.accept_dict_frame
  simp only [hft, hsid, hep, hpb, hg, hc, hid, MiniSession.close]
  simp

theorem old_rekey_eq (s : MiniSession) (sid ep : Int) (pb : List Nat)
    (hc : s.handshake_complete = true)
    (hg : MiniCore.guard_mode_old s pb = none) (hid : sid = s.session_id) :
    MiniCore.accept_old_style s "REKEY" (.bytes pb) (.int sid) (.int ep) =
      if ep ≠ s.epoch + 1 then ({ s with closed := true }, .viol "bad rekey epoch")
      else
        match encI64 ep with
        | some eb =>
          ({ s with epoch := ep,
                    key_material := hashB (s.key_material ++ strB "rekey" ++ eb ++ payloadB pb) },
           .okO (strB "OK:REKEY"))
        | none => ({ s with epoch := ep }, .pyerr) := by
  unfold MiniCore.accept_old_style
  simp only [hg, hc, hid, MiniSession.close]
  simp

theorem dict_app_eq (s : MiniSession) (f : DictFrame) (sid ep : Int)
    (pb : List Nat) (hc : s.handshake_complete = true)
    (hft : dictFt f = .str "APP_DATA") (hsid : dictSid f = .int sid)
    (hep : dictEpoch f = .int ep) (hpb : dictPayload f = .bytes pb)
    (hg : MiniCore.guard_mode_dict s f = none) (hid : sid = s.session_id) :
    MiniCore.accept_dict_frame s f =
      if ep ≠ s.epoch then ({ s with closed := true }, .viol "epoch mismatch")
      else (s, .okD ⟨true, "app", s.epoch, s.session_id, hashB s.key_material⟩) := by
  unfold MiniCore.accept_dict_frame
  simp only [hft, hsid, hep, hpb, hg, hc, hid, MiniSession.close]
  simp

theorem old_app_eq (s : MiniSession) (sid ep : Int) (pb : List Nat)
    (hc : s.handshake_complete = true)
    (hg : MiniCore.guard_mode_old s pb = none) (hid : sid = s.session_id) :
    MiniCore.accept_old_style s "APP_DATA" (.bytes pb) (.int sid) (.int ep) =
      if ep ≠ s.epoch then ({ s with closed := true }, .viol "epoch mismatch")
      else (s, .okO (strB "OK:APP_DATA:" ++ payloadB pb)) := by
  unfold MiniCore.accept_old_style
  simp only [hg, hc, hid, MiniSession.close]
  simp

theorem dict_sid_mismatch_eq (s : MiniSession) (f : DictFrame) (ft : String)
    (sid ep : Int) (pb : List Nat) (hc : s.handshake_complete = true)
    (hft : dictFt f = .str ft) (hhs : ft ≠ "HANDSHAKE_DONE")
    (hsid : dictSid f = .int sid) (hep : dictEpoch f = .int ep)
    (hpb : dictPayload f = .bytes pb)
    (hg : MiniCore.guard_mode_dict s f = none) (hid : sid ≠ s.session_id) :
    MiniCore.accept_dict_frame s f = ({ s with closed := true }, .viol "session mismatch") := by
  unfold MiniCore.accept_dict_frame
  simp only [hft, hsid, hep, hpb, hg, hc, MiniSession.close]
  simp [hhs, hid]

theorem old_sid_mismatch_eq (s : MiniSession) (ft : String) (sid ep : Int)
    (pb : List Nat) (hc : s.handshake_complete = true) (hhs : ft ≠ "HS")
    (hg : MiniCore.guard_mode_old s pb = none) (hid : sid ≠ s.session_id) :
    MiniCore.accept_old_style s ft (.bytes pb) (.int sid) (.int ep) =
      ({ s with closed := true }, .viol "session mismatch") := by
  unfold MiniCore.accept_old_style
  simp only [hg, hc, MiniSession.close]
  simp [hhs, hid]

theorem dict_downgrade_eq (s : MiniSession) (f : DictFrame) (ft : String)
    (sid ep : Int) (pb : List Nat) (pm m : String)
    (hc : s.handshake_complete = true)
    (hft : dictFt f = .str ft) (hhs : ft ≠ "HANDSHAKE_DONE")
    (hsid : dictSid f = .int sid) (hep : dictEpoch f = .int ep)
    (hpb : dictPayload f = .bytes pb)
    (hpm : s.mode = some pm) (hm : f.mode = some (.str m)) (hne : m ≠ pm) :
    MiniCore.accept_dict_frame s f = ({ s with closed := true }, .viol "downgrade detected") := by
  have hg : MiniCore.guard_mode_dict s f = some (s.close "downgrade detected") := by
    unfold MiniCore.guard_mode_dict
    simp [hm, hpm, hne]
  unfold MiniCore.accept_dict_frame
  simp only [hft, hsid, hep, hpb, hg, hc, MiniSession.close]
  simp [hhs]

theorem old_downgrade_eq (s : MiniSession) (ft : String) (sid ep : Int)
    (pb : List Nat) (pm m : String) (hc : s.handshake_complete = true)
    (hhs : ft ≠ "HS") (hmark : pb.take 5 = [77, 79, 68, 69, 58])
    (hdec : utf8D (pb.drop 5) = some m)
    (hpm : s.mode = some pm) (hne : m ≠ pm) :
    MiniCore.accept_old_style s ft (.bytes pb) (.int sid) (.int ep) =
      ({ s with closed := true }, .viol "downgrade detected") := by
  have hg : MiniCore.guard_mode_old s pb = some (s.close "downgrade detected") := by
    unfold MiniCore.guard_mode_old
    simp [hmark, hdec, hpm, hne]
  unfold MiniCore.accept_old_style
  simp only [hg, hc, MiniSession.close]
  simp [hhs]

theorem dict_hs_low_epoch_eq (s : MiniSession) (f : DictFrame) (sid ep : Int)
    (pb : List Nat) (hc : s.handshake_complete = false)
    (hft : dictFt f = .str "HANDSHAKE_DONE") (hsid : dictSid f = .int sid)
    (hep : dictEpoch f = .int ep) (hpb : dictPayload f = .bytes pb)
    (hlow : ep < 1) :
    MiniCore.accept_dict_frame s f =
      ({ s with closed := true }, .viol "Handshake epoch must be >= 1") := by
  unfold MiniCore.accept_dict_frame
  simp only [hft, hsid, hep, hpb, hc, MiniSession.close]
  simp [hlow]

theorem old_hs_eq (s : MiniSession) (sid ep : Int) (pb : List Nat)
    (hc : s.handshake_complete = false)
    (hexp : expectedMismatch s.expected_session_id sid = false) :
    MiniCore.accept_old_style s "HS" (.bytes pb) (.int sid) (.int ep) =
      if ep < 0 then ({ s with closed := true }, .viol "bad epoch")
      else
        match encU64 sid, encI64 ep with
        | some sb, some eb =>
          ({ s with mode := some "PQC+QKD", session_id := sid, epoch := ep,
                    handshake_complete := true,
                    key_material := hashB (strB "hs" ++ sb ++ eb ++ strB "PQC+QKD") },
           .okO (strB "OK:HS"))
        | _, _ =>
          ({ s with mode := some "PQC+QKD", session_id := sid, epoch := ep,
                    handshake_complete := true }, .pyerr) := by
  unfold MiniCore.accept_old_style
  simp only [hc, hexp, MiniSession.close]
  simp

/-- Old-style handshake on a session pinned to expected id 123. -/
def exOldHs : MiniSession × Outcome :=
  MiniCore.accept_frame (MiniCore.new (some 123))
    (.oldF "HS" .pynone (.int 123) (.int 0))

/-- C3.  For an established session at epoch E (and an otherwise
  acceptable REKEY frame: matching identity, no conflicting mode claim,
  well-formed fields, epoch E+1 encodable), REKEY succeeds iff the
  claimed epoch is exactly E+1; any other integer fails with
  "bad rekey epoch" and closes the session; on success the epoch becomes
  E+1.  Both encodings. -/
theorem C3_rekey_epoch_iff :
    (∀ (s : MiniSession) (f : DictFrame) (sid ep : Int) (pb : List Nat) (eb : Bytes),
      s.handshake_complete = true → s.closed = false →
      dictFt f = .str "REKEY" → dictSid f = .int sid → dictEpoch f = .int ep →
      dictPayload f = .bytes pb → MiniCore.guard_mode_dict s f = none →
      sid = s.session_id → encI64 (s.epoch + 1) = some eb →
      (((MiniCore.accept_dict_frame s f).2.isOk = true ↔ ep = s.epoch + 1) ∧
       (ep = s.epoch + 1 → (MiniCore.accept_dict_frame s f).1.epoch = s.epoch + 1) ∧
       (ep ≠ s.epoch + 1 →
         (MiniCore.accept_dict_frame s f).2 = .viol "bad rekey epoch" ∧
         (MiniCore.accept_dict_frame s f).1.closed = true))) ∧
    (∀ (s : MiniSession) (sid ep : Int) (pb : List Nat) (eb : Bytes),
      s.handshake_complete = true → s.closed = false →
      MiniCore.guard_mode_old s pb = none → sid = s.session_id →
      encI64 (s.epoch + 1) = some eb →
      (((MiniCore.accept_old_style s "REKEY" (.bytes pb) (.int sid) (.int ep)).2.isOk = true ↔
          ep = s.epoch + 1) ∧
       (ep = s.epoch + 1 →
         (MiniCore.accept_old_style s "REKEY" (.bytes pb) (.int sid) (.int ep)).1.epoch =
           s.epoch + 1) ∧
       (ep ≠ s.epoch + 1 →
         (MiniCore.accept_old_style s "REKEY" (.bytes pb) (.int sid) (.int ep)).2 =
           .viol "bad rekey epoch" ∧
         (MiniCore.accept_old_style s "REKEY" (.bytes pb) (.int sid) (.int ep)).1.closed =
           true))) := by
  constructor
  · intro s f sid ep pb eb hc hcl hft hsid hep hpb hg hid henc
    have key := dict_rekey_eq s f sid ep pb hc hft hsid hep hpb hg hid
    rcases eq_or_ne ep (s.epoch + 1) with he | he
    · subst he
      rw [key]
      simp [henc, Outcome.isOk]
    · rw [key]
      simp [he, Outcome.isOk]
  · intro s sid ep pb eb hc hcl hg hid henc
    have key := old_rekey_eq s sid ep pb hc hg hid
    rcases eq_or_ne ep (s.epoch + 1) with he | he
    · subst he
      rw [key]
      simp [henc, Outcome.isOk]
    · rw [key]
      simp [he, Outcome.isOk]

/-- Witness for C3 on concrete sessions: a REKEY to epoch 2 on the dict
  session at epoch 1 succeeds and moves the epoch to 2; a REKEY to epoch
  1 on the old-style session at epoch 0 succeeds. -/
theorem C3_witness :
    ((MiniCore.accept_dict_frame exHs.1
        { type := some (.str "REKEY"), session_id := some (.int 7),
          epoch := some (.int 2), payload := some (.bytes [1]) }).2.isOk = true ∧
     (MiniCore.accept_dict_frame exHs.1
        { type := some (.str "REKEY"), session_id := some (.int 7),
          epoch := some (.int 2), payload := some (.bytes [1]) }).1.epoch =
       exHs.1.epoch + 1) ∧
    (MiniCore.accept_old_style exOldHs.1 "REKEY" (.bytes []) (.int 123) (.int 1)).2.isOk =
      true := by
  have hd := (C3_rekey_epoch_iff).1 exHs.1
    { type := some (.str "REKEY"), session_id := some (.int 7),
      epoch := some (.int 2), payload := some (.bytes [1]) }
    7 2 [1] (payloadB [0, 0, 0, 0, 0, 0, 0, 2])
    (by decide) (by decide) (by decide) (by decide) (by decide) (by decide)
    (by decide) (by decide) (by decide)
  have ho := (C3_rekey_epoch_iff).2 exOldHs.1 123 1 []
    (payloadB [0, 0, 0, 0, 0, 0, 0, 1])
    (by decide) (by decide) (by decide) (by decide) (by decide)
  exact ⟨⟨hd.1.mpr (by decide), hd.2.1 (by decide)⟩, ho.1.mpr (by decide)⟩

/-- C4.  For an established session at epoch E (and an otherwise
  acceptable APP_DATA frame), APP_DATA succeeds iff the claimed epoch is
  exactly E; any other value fails with "epoch mismatch" and closes the
  session; success leaves the epoch (indeed the whole session state)
  unchanged.  Both encodings. -/
theorem C4_appdata_epoch_iff :
    (∀ (s : MiniSession) (f : DictFrame) (sid ep : Int) (pb : List Nat),
      s.handshake_complete = true → s.closed = false →
      dictFt f = .str "APP_DATA" → dictSid f = .int sid → dictEpoch f = .int ep →
      dictPayload f = .bytes pb → MiniCore.guard_mode_dict s f = none →
      sid = s.session_id →
      (((MiniCore.accept_dict_frame s f).2.isOk = true ↔ ep = s.epoch) ∧
       (ep = s.epoch → (MiniCore.accept_dict_frame s f).1 = s) ∧
       (ep ≠ s.epoch →
         (MiniCore.accept_dict_frame s f).2 = .viol "epoch mismatch" ∧
         (MiniCore.accept_dict_frame s f).1.closed = true))) ∧
    (∀ (s : MiniSession) (sid ep : Int) (pb : List Nat),
      s.handshake_complete = true → s.closed = false →
      MiniCore.guard_mode_old s pb = none → sid = s.session_id →
      (((MiniCore.accept_old_style s "APP_DATA" (.bytes pb) (.int sid) (.int ep)).2.isOk = true ↔
          ep = s.epoch) ∧
       (ep = s.epoch →
         (MiniCore.accept_old_style s "APP_DATA" (.bytes pb) (.int sid) (.int ep)).1 = s) ∧
       (ep ≠ s.epoch →
         (MiniCore.accept_old_style s "APP_DATA" (.bytes pb) (.int sid) (.int ep)).2 =
           .viol "epoch mismatch" ∧
         (MiniCore.accept_old_style s "APP_DATA" (.bytes pb) (.int sid) (.int ep)).1.closed =
           true))) := by
  constructor
  · intro s f sid ep pb hc hcl hft hsid hep hpb hg hid
    have key := dict_app_eq s f sid ep pb hc hft hsid hep hpb hg hid
    rcases eq_or_ne ep s.epoch with he | he
    · subst he
      rw [key]
      simp [Outcome.isOk]
    · rw [key]
      simp [he, Outcome.isOk]
  · intro s sid ep pb hc hcl hg hid
    have key := old_app_eq s sid ep pb hc hg hid
    rcases eq_or_ne ep s.epoch with he | he
    · subst he
      rw [key]
      simp [Outcome.isOk]
    · rw [key]
      simp [he, Outcome.isOk]

/-- Witness for C4: APP_DATA at the current epoch succeeds and leaves
  the session unchanged (dict), and at a stale epoch fails with
  "epoch mismatch" (old style). -/
theorem C4_witness :
    ((MiniCore.accept_dict_frame exHs.1
        { type := some (.str "APP_DATA"), session_id := some (.int 7),
          epoch := some (.int 1), payload := some (.bytes [104]) }).2.isOk = true ∧
     (MiniCore.accept_dict_frame exHs.1
        { type := some (.str "APP_DATA"), session_id := some (.int 7),
          epoch := some (.int 1), payload := some (.bytes [104]) }).1 = exHs.1) ∧
    ((MiniCore.accept_old_style exOldHs.1 "APP_DATA" (.bytes []) (.int 123) (.int 9)).2 =
       .viol "epoch mismatch" ∧
     (MiniCore.accept_old_style exOldHs.1 "APP_DATA" (.bytes []) (.int 123) (.int 9)).1.closed =
       true) := by
  have hd := (C4_appdata_epoch_iff).1 exHs.1
    { type := some (.str "APP_DATA"), session_id := some (.int 7),
      epoch := some (.int 1), payload := some (.bytes [104]) }
    7 1 [104] (by decide) (by decide) (by decide) (by decide) (by decide)
    (by decide) (by decide) (by decide)
  have ho := (C4_appdata_epoch_iff).2 exOldHs.1 123 9 []
    (by decide) (by decide) (by decide) (by decide)
  exact ⟨⟨hd.1.mpr (by decide), hd.2.1 (by decide)⟩, ho.2.2 (by decide)⟩

/-- C7 counterexample: on the session `exHs.1` (mode pinned to the
  default "PQC+QKD"), a later HANDSHAKE_DONE frame claiming the
  different mode "PQC_ONLY" fails with "Duplicate handshake" — not with
  "downgrade detected" as the claim requires for every frame type: the
  duplicate-handshake guard runs before the mode guard. -/
theorem C7_counterexample :
    exHs.1.mode = some "PQC+QKD" ∧
    (MiniCore.accept_dict_frame exHs.1
      { type := some (.str "HANDSHAKE_DONE"), session_id := some (.int 7),
        epoch := some (.int 2), mode := some (.str "PQC_ONLY"),
        payload := some (.bytes []) }).2 = .viol "Duplicate handshake" := by decide

/-- C7 (amended).  After the handshake pins the mode, any later
  well-formed frame claiming a different mode — via the structured mode
  field or the legacy "MODE:" payload marker — fails with
  "downgrade detected" and closes the session, for every frame type
  except a repeated handshake frame ("HANDSHAKE_DONE" dict /
  "HS" old style), which fails with "Duplicate handshake" before the
  mode guard runs. -/
theorem C7_downgrade_amended :
    (∀ (s : MiniSession) (f : DictFrame) (ft : String) (sid ep : Int)
       (pb : List Nat) (pm m : String),
      s.handshake_complete = true → s.closed = false →
      dictFt f = .str ft → ft ≠ "HANDSHAKE_DONE" →
      dictSid f = .int sid → dictEpoch f = .int ep → dictPayload f = .bytes pb →
      s.mode = some pm → f.mode = some (.str m) → m ≠ pm →
      MiniCore.accept_dict_frame s f =
        ({ s with closed := true }, .viol "downgrade detected")) ∧
    (∀ (s : MiniSession) (ft : String) (sid ep : Int) (pb : List Nat) (pm m : String),
      s.handshake_complete = true → s.closed = false → ft ≠ "HS" →
      pb.take 5 = [77, 79, 68, 69, 58] → utf8D (pb.drop 5) = some m →
      s.mode = some pm → m ≠ pm →
      MiniCore.accept_old_style s ft (.bytes pb) (.int sid) (.int ep) =
        ({ s with closed := true }, .viol "downgrade detected")) := by
  constructor
  · intro s f ft sid ep pb pm m hc hcl hft hhs hsid hep hpb hpm hm hne
    exact dict_downgrade_eq s f ft sid ep pb pm m hc hft hhs hsid hep hpb hpm hm hne
  · intro s ft sid ep pb pm m hc hcl hhs hmark hdec hpm hne
    exact old_downgrade_eq s ft sid ep pb pm m hc hhs hmark hdec hpm hne

/-- Witness for C7 (amended): a REKEY frame claiming "PQC_ONLY" on the
  dict session pinned to "PQC+QKD", and an old-style APP_DATA with
  payload b"MODE:PQC_ONLY" on the old-style session. -/
theorem C7_witness :
    MiniCore.accept_dict_frame exHs.1
      { type := some (.str "REKEY"), session_id := some (.int 7),
        epoch := some (.int 2), mode := some (.str "PQC_ONLY"),
        payload := some (.bytes []) } =
      ({ exHs.1 with closed := true }, .viol "downgrade detected") ∧
    MiniCore.accept_old_style exOldHs.1 "APP_DATA"
      (.bytes [77, 79, 68, 69, 58, 80, 81, 67, 95, 79, 78, 76, 89]) (.int 123) (.int 0) =
      ({ exOldHs.1 with closed := true }, .viol "downgrade detected") :=
  ⟨(C7_downgrade_amended).1 exHs.1
    { type := some (.str "REKEY"), session_id := some (.int 7),
      epoch := some (.int 2), mode := some (.str "PQC_ONLY"),
      payload := some (.bytes []) }
    "REKEY" 7 2 [] "PQC+QKD" "PQC_ONLY"
    (by decide) (by decide) (by decide) (by decide) (by decide) (by decide)
    (by decide) (by decide) (by decide) (by decide),
   (C7_downgrade_amended).2 exOldHs.1 "APP_DATA" 123 0
    [77, 79, 68, 69, 58, 80, 81, 67, 95, 79, 78, 76, 89] "PQC+QKD" "PQC_ONLY"
    (by decide) (by decide) (by decide) (by decide) (by decide) (by decide) (by decide)⟩

/-- C8.  For an established session, every well-formed non-handshake
  frame with no conflicting mode claim whose claimed session identity
  differs from the established `session_id` fails with
  "session mismatch" and closes the session, in both encodings. -/
theorem C8_session_mismatch :
    (∀ (s : MiniSession) (f : DictFrame) (ft : String) (sid ep : Int) (pb : List Nat),
      s.handshake_complete = true → s.closed = false →
      dictFt f = .str ft → ft ≠ "HANDSHAKE_DONE" →
      dictSid f = .int sid → dictEpoch f = .int ep → dictPayload f = .bytes pb →
      MiniCore.guard_mode_dict s f = none → sid ≠ s.session_id →
      MiniCore.accept_dict_frame s f =
        ({ s with closed := true }, .viol "session mismatch")) ∧
    (∀ (s : MiniSession) (ft : String) (sid ep : Int) (pb : List Nat),
      s.handshake_complete = true → s.closed = false → ft ≠ "HS" →
      MiniCore.guard_mode_old s pb = none → sid ≠ s.session_id →
      MiniCore.accept_old_style s ft (.bytes pb) (.int sid) (.int ep) =
        ({ s with closed := true }, .viol "session mismatch")) := by
  constructor
  · intro s f ft sid ep pb hc hcl hft hhs hsid hep hpb hg hid
    exact dict_sid_mismatch_eq s f ft sid ep pb hc hft hhs hsid hep hpb hg hid
  · intro s ft sid ep pb hc hcl hhs hg hid
    exact old_sid_mismatch_eq s ft sid ep pb hc hhs hg hid

/-- Witness for C8: wrong-identity APP_DATA frames on both concrete
  sessions. -/
theorem C8_witness :
    MiniCore.accept_dict_frame exHs.1
      { type := some (.str "APP_DATA"), session_id := some (.int 999),
        epoch := some (.int 1), payload := some (.bytes []) } =
      ({ exHs.1 with closed := true }, .viol "session mismatch") ∧
    MiniCore.accept_old_style exOldHs.1 "APP_DATA" (.bytes []) (.int 999) (.int 0) =
      ({ exOldHs.1 with closed := true }, .viol "session mismatch") :=
  ⟨(C8_session_mismatch).1 exHs.1
    { type := some (.str "APP_DATA"), session_id := some (.int 999),
      epoch := some (.int 1), payload := some (.bytes []) }
    "APP_DATA" 999 1 []
    (by decide) (by decide) (by decide) (by decide) (by decide) (by decide)
    (by decide) (by decide) (by decide),
   (C8_session_mismatch).2 exOldHs.1 "APP_DATA" 999 0 []
    (by decide) (by decide) (by decide) (by decide) (by decide)⟩

/-- C9.  The handshake epoch minimum is encoding-specific: a well-formed
  structured handshake with claimed epoch < 1 is rejected (closing the
  session) with "Handshake epoch must be >= 1", while a legacy
  positional handshake accepts any claimed epoch ≥ 0 (the call succeeds
  outright when the identity is acceptable and the fixed-width integer
  encodings are in range) and rejects epoch < 0 with "bad epoch". -/
theorem C9_handshake_epoch_minimums :
    (∀ (s : MiniSession) (f : DictFrame) (sid ep : Int) (pb : List Nat),
      s.handshake_complete = false → s.closed = false →
      dictFt f = .str "HANDSHAKE_DONE" → dictSid f = .int sid →
      dictEpoch f = .int ep → dictPayload f = .bytes pb → ep < 1 →
      MiniCore.accept_dict_frame s f =
        ({ s with closed := true }, .viol "Handshake epoch must be >= 1")) ∧
    (∀ (s : MiniSession) (sid ep : Int) (pb : List Nat),
      s.handshake_complete = false → s.closed = false →
      expectedMismatch s.expected_session_id sid = false →
      0 ≤ ep → 0 ≤ sid → sid < 2 ^ 64 → ep < 2 ^ 63 →
      (MiniCore.accept_old_style s "HS" (.bytes pb) (.int sid) (.int ep)).2 =
        .okO (strB "OK:HS")) ∧
    (∀ (s : MiniSession) (sid ep : Int) (pb : List Nat),
      s.handshake_complete = false → s.closed = false →
      expectedMismatch s.expected_session_id sid = false → ep < 0 →
      MiniCore.accept_old_style s "HS" (.bytes pb) (.int sid) (.int ep) =
        ({ s with closed := true }, .viol "bad epoch")) := by
  refine ⟨?_, ?_, ?_⟩
  · intro s f sid ep pb hc hcl hft hsid hep hpb hlow
    exact dict_hs_low_epoch_eq s f sid ep pb hc hft hsid hep hpb hlow
  · intro s sid ep pb hc hcl hexp he0 hs0 hs64 he63
    have hu : encU64 sid = some ((natBytes 8 sid.toNat).map Tok.byte) := by
      unfold encU64
      rw [if_pos ⟨hs0, hs64⟩]
    have hi : encI64 ep = some ((natBytes 8 (ep % 2 ^ 64).toNat).map Tok.byte) := by
      unfold encI64
      rw [if_pos ⟨by omega, he63⟩]
    rw [old_hs_eq s sid ep pb hc hexp, if_neg (by omega), hu, hi]
  · intro s sid ep pb hc hcl hexp hneg
    rw [old_hs_eq s sid ep pb hc hexp, if_pos hneg]

/-- Witness for C9: a structured handshake at epoch 0 is rejected; a
  legacy handshake at epoch 0 succeeds; a legacy handshake at epoch -1
  is rejected. -/
theorem C9_witness :
    MiniCore.accept_dict_frame (MiniCore.new none)
      { type := some (.str "HANDSHAKE_DONE"), session_id := some (.int 7),
        epoch := some (.int 0), payload := some (.bytes []) } =
      ({ MiniCore.new none with closed := true }, .viol "Handshake epoch must be >= 1") ∧
    (MiniCore.accept_old_style (MiniCore.new none) "HS" (.bytes []) (.int 5) (.int 0)).2 =
      .okO (strB "OK:HS") ∧
    MiniCore.accept_old_style (MiniCore.new none) "HS" (.bytes []) (.int 5) (.int (-1)) =
      ({ MiniCore.new none with closed := true }, .viol "bad epoch") :=
  ⟨(C9_handshake_epoch_minimums).1 (MiniCore.new none)
    { type := some (.str "HANDSHAKE_DONE"), session_id := some (.int 7),
      epoch := some (.int 0), payload := some (.bytes []) }
    7 0 [] rfl rfl (by decide) (by decide) (by decide) (by decide) (by decide),
   (C9_handshake_epoch_minimums).2.1 (MiniCore.new none) 5 0 [] rfl rfl
    (by decide) (by decide) (by decide) (by decide) (by decide),
   (C9_handshake_epoch_minimums).2.2 (MiniCore.new none) 5 (-1) [] rfl rfl
    (by decide) (by decide)⟩

theorem guard_dict_none_mode (s : MiniSession) (f : DictFrame)
    (hg : MiniCore.guard_mode_dict s f = none) : modeOkDict s.mode f = true := by
  unfold MiniCore.guard_mode_dict at hg
  unfold modeOkDict
  repeat' split at hg
  all_goals simp_all

theorem guard_old_none_mode (s : MiniSession) (pb : List Nat)
    (hg : MiniCore.guard_mode_old s pb = none) : modeOkOld s.mode pb = true := by
  unfold MiniCore.guard_mode_old at hg
  unfold modeOkOld
  repeat' split at hg
  all_goals simp_all

/-- Every successful call is tracked by the reference core transition
  `refStep` on the behavioural view (the `expected_session_id` check can
  only reject, never alter a success). -/
theorem step_ref (s t : MiniSession) (op : Op) (o : Outcome)
    (h : stepOp s op = (t, o)) (hok : o.isOk = true) :
    refStep s.view op = some (t.view, o) := by
  cases op with
  | adv =>
    simp only [stepOp] at h
    unfold MiniCore.advance_epoch at h
    repeat' split at h
    all_goals try simp only [MiniSession.close] at h
    all_goals injection h with hs' ho
    all_goals subst ho
    all_goals subst hs'
    all_goals first
      | (simp [Outcome.isOk] at hok; done)
      | (simp [refStep, MiniSession.view, *])
  | frame inp =>
    cases inp with
    | badF =>
      simp only [stepOp, MiniCore.accept_frame, MiniSession.close] at h
      injection h with hs' ho
      subst ho
      simp [Outcome.isOk] at hok
    | dictF f =>
      simp only [stepOp, MiniCore.accept_frame] at h
      unfold MiniCore.accept_dict_frame at h
      cases hg : MiniCore.guard_mode_dict s f with
      | none =>
        have hmo := guard_dict_none_mode s f hg
        simp only [hg] at h
        repeat' split at h
        all_goals try simp only [MiniSession.close] at h
        all_goals injection h with hs' ho
        all_goals subst ho
        all_goals subst hs'
        all_goals first
          | (simp [Outcome.isOk] at hok; done)
          | (simp [refStep, MiniSession.view, hmo, *])
      | some r =>
        rcases guard_dict_some_spec s f r hg with ⟨h1, h2⟩
        simp only [hg] at h
        repeat' split at h
        all_goals try simp only [MiniSession.close] at h
        all_goals first
          | (subst h; cases o <;> simp_all [Outcome.isOk])
          | (injection h with hs' ho; subst ho; subst hs';
             first
             | (simp [Outcome.isOk] at hok; done)
             | (simp [refStep, MiniSession.view, *]))
    | oldF ft payload csid cep =>
      simp only [stepOp, MiniCore.accept_frame] at h
      unfold MiniCore.accept_old_style at h
      split at h
      · split at h
        · simp only [MiniSession.close] at h
          injection h with hs' ho
          subst ho
          simp [Outcome.isOk] at hok
        · rename_i sid epoch payload_b heq
          cases hg : MiniCore.guard_mode_old s payload_b with
          | none =>
            have hmo := guard_old_none_mode s payload_b hg
            simp only [hg] at h
            repeat' split at h
            all_goals try simp only [MiniSession.close] at h
            all_goals injection h with hs' ho
            all_goals subst ho
            all_goals subst hs'
            all_goals first
              | (simp [Outcome.isOk] at hok; done)
              | (simp [refStep, MiniSession.view, hmo, *])
          | some r =>
            rcases guard_old_some_spec s payload_b r hg with ⟨h1, h2⟩
            simp only [hg] at h
            repeat' split at h
            all_goals try simp only [MiniSession.close] at h
            all_goals first
              | (subst h; cases o <;> simp_all [Outcome.isOk])
              | (injection h with hs' ho; subst ho; subst hs';
                 first
                 | (simp [Outcome.isOk] at hok; done)
                 | (simp [refStep, MiniSession.view, *]))
      · simp only [MiniSession.close] at h
        injection h with hs' ho
        subst ho
        simp [Outcome.isOk] at hok

/-- Two sessions agreeing on the behavioural view that both successfully
  run the same operation list produce identical fingerprint traces and
  again agree on the view. -/
theorem runOps_det : ∀ (ops : List Op) (s1 s2 t1 t2 : MiniSession)
    (l1 l2 : List Bytes), s1.view = s2.view →
    runOps s1 ops = some (t1, l1) → runOps s2 ops = some (t2, l2) →
    l1 = l2 ∧ t1.view = t2.view := by
  intro ops
  induction ops with
  | nil =>
    intro s1 s2 t1 t2 l1 l2 hv h1 h2
    simp only [runOps] at h1 h2
    injection h1 with h1
    injection h2 with h2
    injection h1 with h1a h1b
    injection h2 with h2a h2b
    subst h1a
    subst h2a
    subst h1b
    subst h2b
    exact ⟨rfl, hv⟩
  | cons op ops ih =>
    intro s1 s2 t1 t2 l1 l2 hv h1 h2
    rw [runOps] at h1 h2
    rcases hp1 : stepOp s1 op with ⟨s1', o1⟩
    rcases hp2 : stepOp s2 op with ⟨s2', o2⟩
    rw [hp1] at h1
    rw [hp2] at h2
    by_cases hok1 : o1.isOk = true
    · by_cases hok2 : o2.isOk = true
      · simp only [hok1, hok2, if_true] at h1 h2
        rcases hr1 : runOps s1' ops with - | u1
        · rw [hr1] at h1
          exact absurd h1 (by simp)
        · rcases hr2 : runOps s2' ops with - | u2
          · rw [hr2] at h2
            exact absurd h2 (by simp)
          · rcases u1 with ⟨u1s, fps1⟩
            rcases u2 with ⟨u2s, fps2⟩
            rw [hr1] at h1
            rw [hr2] at h2
            injection h1 with h1
            injection h2 with h2
            injection h1 with h1a h1b
            injection h2 with h2a h2b
            subst h1a
            subst h2a
            subst h1b
            subst h2b
            have hv1 := step_ref s1 s1' op o1 hp1 hok1
            have hv2 := step_ref s2 s2' op o2 hp2 hok2
            rw [hv] at hv1
            rw [hv2] at hv1
            injection hv1 with hv1
            injection hv1 with hva hvb
            have hkm : s1'.key_material = s2'.key_material :=
              congrArg CoreView.key_material hva.symm
            rcases ih s1' s2' u1s u2s fps1 fps2 hva.symm hr1 hr2 with ⟨hl, hu⟩
            refine ⟨?_, hu⟩
            rw [MiniSession.fingerprint_hex, MiniSession.fingerprint_hex, hkm, hl]
      · simp only [hok2, if_false, Bool.false_eq_true] at h2
        exact absurd h2 (by simp)
    · simp only [hok1, if_false, Bool.false_eq_true] at h1
      exact absurd h1 (by simp)

/-- C10.  The fingerprint trace is a pure function of the accepted
  operation sequence: two independently constructed sessions (any
  expected-identity pins) that each run the same list of
  `accept_frame` / `advance_epoch` operations with every call succeeding
  report identical key fingerprints after each corresponding step. -/
theorem C10_fingerprint_deterministic (e1 e2 : Option Int) (ops : List Op)
    (t1 t2 : MiniSession) (l1 l2 : List Bytes)
    (h1 : runOps (MiniCore.new e1) ops = some (t1, l1))
    (h2 : runOps (MiniCore.new e2) ops = some (t2, l2)) : l1 = l2 :=
  (runOps_det ops (MiniCore.new e1) (MiniCore.new e2) t1 t2 l1 l2 rfl h1 h2).1

/-- A concrete operation list: legacy handshake then app data. -/
def c10ops : List Op :=
  [.frame (.oldF "HS" .pynone (.int 5) (.int 0)),
   .frame (.oldF "APP_DATA" (.bytes [104]) (.int 5) (.int 0))]

/-- The key material both runs reach after the handshake. -/
def c10km : Bytes :=
  hashB (strB "hs" ++ payloadB [0, 0, 0, 0, 0, 0, 0, 5] ++
    payloadB [0, 0, 0, 0, 0, 0, 0, 0] ++ strB "PQC+QKD")

/-- End state of the run from an unpinned session. -/
def c10st1 : MiniSession :=
  { expected_session_id := none, session_id := 5, epoch := 0,
    handshake_complete := true, closed := false, key_material := c10km,
    mode := some "PQC+QKD" }

/-- End state of the run from a session pinned to expected id 5. -/
def c10st2 : MiniSession := { c10st1 with expected_session_id := some 5 }

/-- Fingerprint trace of the first run. -/
def c10fpsA : List Bytes := [hashB c10km, hashB c10km]

/-- Fingerprint trace of the second run. -/
def c10fpsB : List Bytes := [hashB c10km, hashB c10km]

/-- Witness for C10: two differently-pinned sessions replay `c10ops`
  successfully and report the same fingerprint trace. -/
theorem C10_witness :
    (runOps (MiniCore.new none) c10ops).map Prod.snd =
      (runOps (MiniCore.new (some 5)) c10ops).map Prod.snd := by
  have h1 : runOps (MiniCore.new none) c10ops = some (c10st1, c10fpsA) := by decide
  have h2 : runOps (MiniCore.new (some 5)) c10ops = some (c10st2, c10fpsB) := by decide
  rw [h1, h2]
  exact congrArg (fun l => some l)
    (C10_fingerprint_deterministic none (some 5) c10ops c10st1 c10st2 c10fpsA c10fpsB h1 h2)
